import Mathlib

/-!
Verification of the MariaDB-to-ScyllaDB migration setup tool
(`setup_migration.py`).

Strings are modelled as `List Char` (`Str`); Python string literals are
embedded with `str "..."`.  Pure string-building code (type mapping, DDL
text, trigger text) is translated directly.  The orchestration layer
(which statements are executed against the two databases, which errors
propagate and which are swallowed) is modelled as functions producing the
list of executed DDL actions, the log lines printed, and a success flag;
external failures of individual DDL statements are injected through
boolean flags on the per-table environment.
-/

/-- Python strings are modelled as lists of characters. -/
abbrev Str := List Char

/-- Embed a Lean string literal as a `Str`. -/
def str (s : String) : Str := s.toList

/-- Characters of a conventional lower-case SQL identifier
(letters `a`-`z`, digits, underscore). -/
def identChar (c : Char) : Bool := c.isLower || c.isDigit || c = '_'

/-- A table/column name made only of conventional identifier characters. -/
def safeIdent (s : Str) : Bool := s.all identChar

/-- Python's `sep.join(parts)`. -/
def joinSep (sep : Str) : List Str → Str
  | [] => []
  | [x] => x
  | x :: y :: rest => x ++ sep ++ joinSep sep (y :: rest)

/-- Python's `needle in hay` on strings: `needle` occurs contiguously in
`hay`. -/
def hasSub (needle : Str) : Str → Bool
  | [] => needle.isEmpty
  | c :: rest => needle.isPrefixOf (c :: rest) || hasSub needle rest

/-- One introspected column, translated from `get_table_schema`
(`setup_migration.py` lines 193-217): the dict
`{'name': …, 'type': …, 'nullable': …, 'is_primary': …}` built from
`information_schema.columns` ordered by `ordinal_position`. -/
structure Column where
  name : Str
  colType : Str
  nullable : Bool
  is_primary : Bool
deriving DecidableEq

/-- The names of the primary-key columns of an introspected column list, in
declaration order: `[col['name'] for col in columns if col['is_primary']]`
(line 287); the orchestrator's separate `key_column_usage` query
(lines 403-411) returns the same set, also ordered by `ordinal_position`. -/
def primaryKeys (cols : List Column) : List Str :=
  (cols.filter (fun c => c.is_primary)).map (fun c => c.name)

/-- The `type_mapping` dict of `mariadb_type_to_cql_type`
(lines 450-474), in Python insertion order. -/
def type_mapping : List (Str × Str) :=
  [ (str "tinyint", str "tinyint"),
    (str "smallint", str "smallint"),
    (str "int", str "int"),
    (str "bigint", str "bigint"),
    (str "float", str "float"),
    (str "double", str "double"),
    (str "decimal", str "decimal"),
    (str "varchar", str "text"),
    (str "char", str "text"),
    (str "text", str "text"),
    (str "tinytext", str "text"),
    (str "mediumtext", str "text"),
    (str "longtext", str "text"),
    (str "varbinary", str "blob"),
    (str "binary", str "blob"),
    (str "blob", str "blob"),
    (str "tinyblob", str "blob"),
    (str "mediumblob", str "blob"),
    (str "longblob", str "blob"),
    (str "date", str "date"),
    (str "datetime", str "timestamp"),
    (str "timestamp", str "timestamp"),
    (str "time", str "time") ]

/-- Stable insertion of a key into a list already sorted by descending
length: an equal-length key that was earlier in the original order stays
in front. -/
def insertDescLen (k : Str) : List Str → List Str
  | [] => [k]
  | x :: xs => if x.length ≤ k.length then k :: x :: xs else x :: insertDescLen k xs

/-- Stable sort by descending length, modelling Python's stable
`sorted(keys, key=len, reverse=True)` (line 483). -/
def sortDescLen : List Str → List Str
  | [] => []
  | x :: xs => insertDescLen x (sortDescLen xs)

/-- Model of `sorted(type_mapping.keys(), key=len, reverse=True)`. -/
def sortedKeys : List Str := sortDescLen (type_mapping.map Prod.fst)

/-- The diagnostic printed on the fallback path (line 492):
`f"    ⚠ Warning: Unknown type '{mariadb_type}', using 'text'"`. -/
def unknown_type_warning (mariadb_type : Str) : Str :=
  str "    ⚠ Warning: Unknown type '" ++ mariadb_type ++ str "', using 'text'"

/-- Translation of `mariadb_type_to_cql_type` (lines 448-493).  Returns the CQL type
together with the list of warning diagnostics emitted (the Python
function prints the warning as a side effect).  The dictionary access
`type_mapping[key]` always succeeds because `key` is drawn from the
dictionary's own key set; the `.getD []` default is unreachable. -/
def mariadb_type_to_cql_type (mariadb_type : Str) : Str × List Str :=
  let mariadb_type_lower := mariadb_type.map Char.toLower
  let base_type := mariadb_type_lower.takeWhile (fun c => c != '(')
  match sortedKeys.find? (fun k => k.isPrefixOf base_type) with
  | some key => ((List.lookup key type_mapping).getD [], [])
  | none =>
    if hasSub (str "binary(16)") mariadb_type_lower
        || hasSub (str "char(36)") mariadb_type_lower then
      (str "uuid", [])
    else
      (str "text", [unknown_type_warning mariadb_type])


/-- Backtick-quoted column list `", ".join([f"`{c}`" for c in col_names])`
(line 285). -/
def col_list (cols : List Column) : Str :=
  joinSep (str ", ") (cols.map (fun c => str "`" ++ c.name ++ str "`"))

/-- The list `", ".join([f"NEW.`{c}`" for c in col_names])` (line 286). -/
def new_col_list (cols : List Column) : Str :=
  joinSep (str ", ") (cols.map (fun c => str "NEW.`" ++ c.name ++ str "`"))

/-- The UPDATE trigger's SET list
`", ".join([f"`{c}` = NEW.`{c}`" for c in col_names])` (line 340);
`col_names` is every column of the table, primary-key columns included. -/
def update_col_list (cols : List Column) : Str :=
  joinSep (str ", ")
    (cols.map (fun c => str "`" ++ c.name ++ str "` = NEW.`" ++ c.name ++ str "`"))

/-- The WHERE clause shared by the UPDATE and DELETE triggers:
`" AND ".join([f"`{pk}` = OLD.`{pk}`" for pk in primary_keys])` (line 294). -/
def where_clause (cols : List Column) : Str :=
  joinSep (str " AND ")
    ((primaryKeys cols).map (fun pk => str "`" ++ pk ++ str "` = OLD.`" ++ pk ++ str "`"))

/-- The name `f"{table}_{trigger_type}_trigger"` (line 298). -/
def trigger_name (table ttype : Str) : Str :=
  table ++ str "_" ++ ttype ++ str "_trigger"

/-- A verbose-mode `SIGNAL` debug line (lines 315-320), empty when verbose
mode is off. -/
def debug_line (table op phase : Str) (verbose : Bool) : Str :=
  if verbose then
    str "SIGNAL SQLSTATE '01000' SET MESSAGE_TEXT = 'DEBUG: " ++ table
      ++ str "_" ++ op ++ str "_trigger " ++ phase ++ str "';"
  else []

/-- The INSERT trigger text (lines 324-334). -/
def insert_trigger (source_database scylla_database table : Str)
    (cols : List Column) (verbose : Bool) : Str :=
  str "\nCREATE TRIGGER `" ++ source_database ++ str "`.`"
    ++ trigger_name table (str "insert")
    ++ str "`\nAFTER INSERT ON `" ++ source_database ++ str "`.`" ++ table
    ++ str "`\nFOR EACH ROW\nBEGIN\n    "
    ++ debug_line table (str "insert") (str "START") verbose
    ++ str "\n    INSERT INTO `" ++ scylla_database ++ str "`.`" ++ table
    ++ str "` (" ++ col_list cols ++ str ")\n    VALUES (" ++ new_col_list cols
    ++ str ");\n    " ++ debug_line table (str "insert") (str "END") verbose
    ++ str "\nEND$$\n        "

/-- The UPDATE trigger text (lines 342-353). -/
def update_trigger (source_database scylla_database table : Str)
    (cols : List Column) (verbose : Bool) : Str :=
  str "\nCREATE TRIGGER `" ++ source_database ++ str "`.`"
    ++ trigger_name table (str "update")
    ++ str "`\nAFTER UPDATE ON `" ++ source_database ++ str "`.`" ++ table
    ++ str "`\nFOR EACH ROW\nBEGIN\n    "
    ++ debug_line table (str "update") (str "START") verbose
    ++ str "\n    UPDATE `" ++ scylla_database ++ str "`.`" ++ table
    ++ str "`\n    SET " ++ update_col_list cols
    ++ str "\n    WHERE " ++ where_clause cols ++ str ";\n    "
    ++ debug_line table (str "update") (str "END") verbose
    ++ str "\nEND$$\n        "

/-- The DELETE trigger text (lines 360-368). -/
def delete_trigger (source_database scylla_database table : Str)
    (cols : List Column) (verbose : Bool) : Str :=
  str "\nCREATE TRIGGER `" ++ source_database ++ str "`.`"
    ++ trigger_name table (str "delete")
    ++ str "`\nAFTER DELETE ON `" ++ source_database ++ str "`.`" ++ table
    ++ str "`\nFOR EACH ROW\nBEGIN\n    "
    ++ debug_line table (str "delete") (str "START") verbose
    ++ str "\n    DELETE FROM `" ++ scylla_database ++ str "`.`" ++ table
    ++ str "` WHERE " ++ where_clause cols ++ str ";\n    "
    ++ debug_line table (str "delete") (str "END") verbose
    ++ str "\nEND$$\n        "

/-- The replication-target metadata embedded in the mirror table's COMMENT
(lines 249-253). -/
def mirror_comment (scylla_host scylla_keyspace table : Str) (verbose : Bool) : Str :=
  str "scylla_hosts=" ++ scylla_host ++ str ";scylla_keyspace=" ++ scylla_keyspace
    ++ str ";scylla_table=" ++ table
    ++ (if verbose then str ";scylla_verbose=true" else [])

/-- The `column_defs` list of `create_mariadb_scylla_table`
(lines 232-246): one `\x60name\x60 type [NOT NULL]` entry per column, then —
when at least one column is flagged primary — a trailing
`PRIMARY KEY (…)` entry listing the backtick-quoted primary-key columns
in declaration order. -/
def mirror_column_defs (cols : List Column) : List Str :=
  (cols.map (fun c =>
      str "`" ++ c.name ++ str "` " ++ c.colType
        ++ (if c.nullable then [] else str " NOT NULL")))
    ++ (if primaryKeys cols = [] then []
        else [str "PRIMARY KEY ("
               ++ joinSep (str ", ") ((primaryKeys cols).map (fun n => str "`" ++ n ++ str "`"))
               ++ str ")"])

/-- The mirror table's `create_stmt` (lines 255-260). -/
def mirror_create_stmt (scylla_database table : Str) (cols : List Column)
    (comment : Str) : Str :=
  str "\n            CREATE TABLE IF NOT EXISTS `" ++ scylla_database ++ str "`.`"
    ++ table ++ str "` (\n                "
    ++ joinSep (str ", ") (mirror_column_defs cols)
    ++ str "\n            ) ENGINE=SCYLLA\n            COMMENT='" ++ comment
    ++ str "'\n        "

/-- Identity of a database object created or dropped during setup: the
ScyllaDB keyspace, the ScyllaDB target table, the MariaDB mirror table
(in the scylla database), or a MariaDB trigger (named string). -/
inductive ObjId where
  | keyspace (name : Str)
  | scyllaTable (ks table : Str)
  | mirrorTable (db table : Str)
  | trigger (db name : Str)
deriving DecidableEq

/-- One executed DDL/DML statement, abstracted to the construct used:
`createIfAbsent` for `CREATE … IF NOT EXISTS`, `createStrict` for an
unconditional `CREATE TRIGGER`, `dropIfExists` for
`DROP TRIGGER IF EXISTS`, and `copyData` for the one-shot
`INSERT INTO … SELECT * FROM …` bulk copy. -/
inductive DdlAction where
  | createIfAbsent (o : ObjId)
  | createStrict (o : ObjId)
  | dropIfExists (o : ObjId)
  | copyData (sourceDb targetDb table : Str)
deriving DecidableEq

/-- Result of one setup step: the statements it executed, the log lines it
printed, and whether it completed normally.  For `create_keyspace` and
`create_scylla_table` (which re-`raise` on failure) `ok = false` means the
exception propagates; for the mirror-table and trigger steps (which catch
and `return False`) `ok = false` is only a reported failure. -/
structure StepResult where
  acts : List DdlAction
  logs : List Str
  ok : Bool
deriving DecidableEq

/-- Translation of `create_keyspace` (lines 435-445): `CREATE KEYSPACE IF NOT EXISTS`;
on execution failure it logs and re-raises. -/
def create_keyspace (ks : Str) (fails : Bool) : StepResult :=
  if fails then
    ⟨[DdlAction.createIfAbsent (ObjId.keyspace ks)],
     [str "    ✗ Error creating keyspace"], false⟩
  else
    ⟨[DdlAction.createIfAbsent (ObjId.keyspace ks)],
     [str "    ✓ Keyspace '" ++ ks ++ str "' ready"], true⟩

/-- Translation of `create_scylla_table` (lines 496-525): `CREATE TABLE IF NOT EXISTS`
in the ScyllaDB keyspace; on execution failure it logs and re-raises. -/
def create_scylla_table (ks table : Str) (fails : Bool) : StepResult :=
  if fails then
    ⟨[DdlAction.createIfAbsent (ObjId.scyllaTable ks table)],
     [str "    ✗ Error creating ScyllaDB table"], false⟩
  else
    ⟨[DdlAction.createIfAbsent (ObjId.scyllaTable ks table)],
     [str "    ✓ ScyllaDB table created"], true⟩

/-- Translation of `create_mariadb_scylla_table` (lines 220-271): `CREATE TABLE IF NOT
EXISTS` for the mirror table (`mirror_create_stmt`); an empty column list
or an execution failure is logged and reported as `False`, never
re-raised. -/
def create_mariadb_scylla_table (scylla_database table : Str)
    (cols : List Column) (fails : Bool) : StepResult :=
  if cols = [] then
    ⟨[], [str "  ✗ No columns found for " ++ table], false⟩
  else if fails then
    ⟨[DdlAction.createIfAbsent (ObjId.mirrorTable scylla_database table)],
     [str "  ✗ Error creating table " ++ scylla_database ++ str "." ++ table], false⟩
  else
    ⟨[DdlAction.createIfAbsent (ObjId.mirrorTable scylla_database table)],
     [str "  ✓ Table " ++ scylla_database ++ str "." ++ table ++ str " created"], true⟩

/-- The skip diagnostic of `create_replication_triggers` (line 290). -/
def no_pk_trigger_log (source_database table : Str) : Str :=
  str "  ✗ No primary key found for " ++ source_database ++ str "." ++ table
    ++ str ", cannot create triggers"

/-- Translation of `create_replication_triggers` (lines 274-382): with no columns or no
primary key it logs and returns `False` before executing any statement;
otherwise it drops the three triggers with `DROP TRIGGER IF EXISTS` and
re-creates them with plain `CREATE TRIGGER`.  Any execution failure is
caught, logged and reported as `False` (modelled as failing at the first
`CREATE TRIGGER`), never re-raised. -/
def create_replication_triggers (source_database table : Str)
    (cols : List Column) (fails : Bool) : StepResult :=
  if cols = [] then
    ⟨[], [str "  ✗ No columns found for " ++ source_database ++ str "." ++ table], false⟩
  else if primaryKeys cols = [] then
    ⟨[], [no_pk_trigger_log source_database table], false⟩
  else
    let drops :=
      [DdlAction.dropIfExists (ObjId.trigger source_database (trigger_name table (str "insert"))),
       DdlAction.dropIfExists (ObjId.trigger source_database (trigger_name table (str "update"))),
       DdlAction.dropIfExists (ObjId.trigger source_database (trigger_name table (str "delete")))]
    if fails then
      ⟨drops, [str "  ✗ Error creating triggers for " ++ source_database ++ str "." ++ table], false⟩
    else
      ⟨drops ++
        [DdlAction.createStrict (ObjId.trigger source_database (trigger_name table (str "insert"))),
         DdlAction.createStrict (ObjId.trigger source_database (trigger_name table (str "update"))),
         DdlAction.createStrict (ObjId.trigger source_database (trigger_name table (str "delete")))],
       [str "    ✓ INSERT trigger created", str "    ✓ UPDATE trigger created",
        str "    ✓ DELETE trigger created"], true⟩

/-- The per-table environment: the introspected schema plus flags saying
which of the table's DDL statements the databases reject (injected
external failures). -/
structure TableEnv where
  name : Str
  columns : List Column
  keyspaceFails : Bool
  scyllaTableFails : Bool
  mirrorFails : Bool
  triggerFails : Bool
  copyFails : Bool
deriving DecidableEq

/-- The command-line arguments consumed by the setup path. -/
structure Args where
  mariadb_database : Str
  mariadb_scylla_database : Str
  scylla_ks : Str
  scylla_fdw_host : Str
  mariadb_verbose : Bool
deriving DecidableEq

/-- The skip diagnostics of `setup_table_migration` (lines 414-415). -/
def no_pk_setup_logs (table : Str) : List Str :=
  [str "  ✗ Error: Table '" ++ table ++ str "' has no primary key",
   str "    ScyllaDB requires a primary key. Skipping this table."]

/-- Translation of `setup_table_migration` (lines 385-432).  With an empty primary-key
column set it logs the skip and returns normally without executing any
statement.  Otherwise it runs `create_keyspace` and `create_scylla_table`
— whose re-raised exceptions propagate out uncaught (`ok = false`) — and
then `create_mariadb_scylla_table` and `create_replication_triggers`,
whose `False` results are ignored. -/
def setup_table_migration (env : TableEnv) (args : Args) : StepResult :=
  if primaryKeys env.columns = [] then
    ⟨[], no_pk_setup_logs env.name, true⟩
  else
    let k := create_keyspace args.scylla_ks env.keyspaceFails
    if k.ok = false then ⟨k.acts, k.logs, false⟩
    else
      let s := create_scylla_table args.scylla_ks env.name env.scyllaTableFails
      if s.ok = false then ⟨k.acts ++ s.acts, k.logs ++ s.logs, false⟩
      else
        let m := create_mariadb_scylla_table args.mariadb_scylla_database env.name
                   env.columns env.mirrorFails
        let t := create_replication_triggers args.mariadb_database env.name
                   env.columns env.triggerFails
        ⟨k.acts ++ s.acts ++ m.acts ++ t.acts,
         k.logs ++ s.logs ++ m.logs ++ t.logs, true⟩

/-- The orchestrator's setup loop (`main`, lines 47-49): each table's
processed name is collected; an exception escaping
`setup_table_migration` is uncaught in `main`, so it aborts the loop and
the remaining tables are never processed.  Returns the processed names
and whether the run aborted. -/
def runSetupAll (args : Args) : List TableEnv → List Str × Bool
  | [] => ([], false)
  | env :: rest =>
    let r := setup_table_migration env args
    if r.ok = false then ([env.name], true)
    else
      let t := runSetupAll args rest
      (env.name :: t.1, t.2)

/-- Translation of `migrate_table_data` (lines 536-573): reads `COUNT(*)` from the source
table; zero rows is a logged skip with no statement, otherwise one
`INSERT INTO … SELECT * FROM …` statement is executed; any failure is
caught and logged, never re-raised. -/
def migrate_table_data {α : Type} (source_database scylla_database table_name : Str)
    (rows : List α) (copyFails : Bool) : List DdlAction × List Str :=
  let row_count := rows.length
  if row_count = 0 then
    ([], [str "    ⚠ No data in source table (table is empty)"])
  else if copyFails then
    ([DdlAction.copyData source_database scylla_database table_name],
     [str "    ✗ Error migrating table data"])
  else
    ([DdlAction.copyData source_database scylla_database table_name],
     [str "    ✓ Migrated row(s) to ScyllaDB"])

/-- Semantics of the bulk-copy statements: `INSERT INTO … SELECT * FROM …`
appends every source row to the destination; other statements move no
rows. -/
def runCopyStmts {α : Type} : List DdlAction → List α → List α → List α
  | [], _, dst => dst
  | DdlAction.copyData _ _ _ :: rest, src, dst => runCopyStmts rest src (dst ++ src)
  | _ :: rest, src, dst => runCopyStmts rest src dst

/-- The orchestrator's data-migration loop (`main`, lines 53-54): every
table is visited; `migrate_table_data` cannot abort the loop. -/
def runCopyAll {α : Type} (args : Args) :
    List (TableEnv × List α) → List (List DdlAction × List Str)
  | [] => []
  | (env, rows) :: rest =>
    migrate_table_data args.mariadb_database args.mariadb_scylla_database env.name
        rows env.copyFails
      :: runCopyAll args rest

/-- Object-store semantics of one statement: `CREATE … IF NOT EXISTS`
inserts (a no-op when present) and never errors; a plain `CREATE` errors
when the object exists; `DROP … IF EXISTS` removes and never errors; the
bulk copy touches no schema object.  The returned flag is `true` when the
statement errored. -/
def execAction (s : Finset ObjId) : DdlAction → Finset ObjId × Bool
  | DdlAction.createIfAbsent o => (insert o s, false)
  | DdlAction.createStrict o => if o ∈ s then (s, true) else (insert o s, false)
  | DdlAction.dropIfExists o => (s.erase o, false)
  | DdlAction.copyData _ _ _ => (s, false)

/-- Run a statement list against the object store, reporting whether any
statement errored. -/
def runActions (s : Finset ObjId) : List DdlAction → Finset ObjId × Bool
  | [] => (s, false)
  | a :: rest =>
    let r := execAction s a
    let t := runActions r.1 rest
    (t.1, r.2 || t.2)

theorem mem_of_mem_joinSep {c : Char} {sep : Str} {L : List Str}
    (h : c ∈ joinSep sep L) : c ∈ sep ∨ ∃ s, s ∈ L ∧ c ∈ s := by
  induction L with
  | nil => simp [joinSep] at h
  | cons x xs ih =>
    cases xs with
    | nil =>
      simp only [joinSep] at h
      exact Or.inr ⟨x, by simp, h⟩
    | cons y rest =>
      simp only [joinSep, List.mem_append] at h
      rcases h with (h | h) | h
      · exact Or.inr ⟨x, by simp, h⟩
      · exact Or.inl h
      · rcases ih h with h' | ⟨s, hs, hcs⟩
        · exact Or.inl h'
        · exact Or.inr ⟨s, by simp [hs], hcs⟩

theorem infix_joinSep_of_mem {x sep : Str} {L : List Str}
    (h : x ∈ L) : x <:+: joinSep sep L := by
  induction L with
  | nil => simp at h
  | cons a xs ih =>
    cases xs with
    | nil =>
      simp at h
      subst h
      exact List.infix_refl x
    | cons y rest =>
      rcases List.mem_cons.mp h with rfl | hmem
      · exact ⟨[], sep ++ joinSep sep (y :: rest), by simp [joinSep, List.append_assoc]⟩
      · exact (ih hmem).trans ⟨a ++ sep, [], by simp [joinSep, List.append_assoc]⟩

theorem trigger_name_ne {t x y : Str} (h : x ≠ y) :
    trigger_name t x ≠ trigger_name t y := by
  intro he
  exact h (by simpa [trigger_name, List.append_assoc] using he)

theorem where_clause_no_W {cols : List Column}
    (hsafe : ∀ c ∈ cols, safeIdent c.name = true) :
    'W' ∉ where_clause cols := by
  intro hmem
  rcases mem_of_mem_joinSep hmem with h | ⟨s, hs, hcs⟩
  · exact absurd h (by decide)
  · rcases List.mem_map.mp hs with ⟨pk, hpk, rfl⟩
    have hpk' : ∃ a, (a ∈ cols ∧ a.is_primary = true) ∧ a.name = pk := by
      simpa [primaryKeys] using hpk
    rcases hpk' with ⟨col, ⟨hmemcols, _⟩, rfl⟩
    simp only [List.mem_append] at hcs
    rcases hcs with ((((h | h) | h) | h) | h)
    · exact absurd h (by decide)
    · exact absurd (List.all_eq_true.mp (hsafe col hmemcols) 'W' h) (by decide)
    · exact absurd h (by decide)
    · exact absurd (List.all_eq_true.mp (hsafe col hmemcols) 'W' h) (by decide)
    · exact absurd h (by decide)

theorem create_drop_cycle (s : Finset ObjId) (k st m ti tu td : ObjId)
    (h1 : ti ≠ tu) (h2 : ti ≠ td) (h3 : tu ≠ td) :
    runActions s
      [DdlAction.createIfAbsent k, DdlAction.createIfAbsent st, DdlAction.createIfAbsent m,
       DdlAction.dropIfExists ti, DdlAction.dropIfExists tu, DdlAction.dropIfExists td,
       DdlAction.createStrict ti, DdlAction.createStrict tu, DdlAction.createStrict td]
    = (insert td (insert tu (insert ti
        ((((insert m (insert st (insert k s))).erase ti).erase tu).erase td))), false) := by
  have hti : ti ∉ (((insert m (insert st (insert k s))).erase ti).erase tu).erase td := by
    simp [Finset.mem_erase]
  have htu : tu ∉ insert ti
      ((((insert m (insert st (insert k s))).erase ti).erase tu).erase td) := by
    simp [Finset.mem_insert, Finset.mem_erase, Ne.symm h1]
  have htd : td ∉ insert tu (insert ti
      ((((insert m (insert st (insert k s))).erase ti).erase tu).erase td)) := by
    simp [Finset.mem_insert, Finset.mem_erase, Ne.symm h2, Ne.symm h3]
  simp [runActions, execAction, hti, htu, htd]

/-- C2: the claimed UUID mapping does not happen in the code.  The
prefix-match loop resolves `binary(16)` through the mapping key `binary`
(giving `blob`) and `char(36)` through `char` (giving `text`) before the
UUID shape check is ever reached, so neither input yields `uuid`;
`char(10)` yields `text` as claimed. -/
theorem uuid_mapping_code_result :
    mariadb_type_to_cql_type (str "binary(16)") = (str "blob", [])
    ∧ mariadb_type_to_cql_type (str "char(36)") = (str "text", [])
    ∧ mariadb_type_to_cql_type (str "char(10)") = (str "text", [])
    ∧ (mariadb_type_to_cql_type (str "binary(16)")).1 ≠ str "uuid"
    ∧ (mariadb_type_to_cql_type (str "char(36)")).1 ≠ str "uuid" := by
  refine ⟨by decide, by decide, by decide, by decide, by decide⟩

/-- C6: mapping keys are tested in descending length order, so
`timestamp` resolves to `timestamp` and `time` to `time`, and the two
results differ; `timestamp` indeed comes before `time` in the sorted key
order. -/
theorem timestamp_time_tiebreak :
    mariadb_type_to_cql_type (str "timestamp") = (str "timestamp", [])
    ∧ mariadb_type_to_cql_type (str "time") = (str "time", [])
    ∧ (mariadb_type_to_cql_type (str "timestamp")).1
        ≠ (mariadb_type_to_cql_type (str "time")).1
    ∧ sortedKeys.indexOf (str "timestamp") < sortedKeys.indexOf (str "time") := by
  refine ⟨by decide, by decide, by decide, by decide⟩

/-- C7: the type mapper is total (it is a Lean function) and emits at most
one diagnostic on every input; on any input whose base keyword matches no
mapping key and whose lower-cased text contains neither UUID shape, it
returns the default `text` type together with exactly one warning that
names the unknown type. -/
theorem type_mapper_total_default :
    (∀ t : Str, ((mariadb_type_to_cql_type t).2).length ≤ 1)
    ∧ (∀ t : Str,
        sortedKeys.find?
            (fun k => k.isPrefixOf ((t.map Char.toLower).takeWhile (fun c => c != '('))) = none →
        hasSub (str "binary(16)") (t.map Char.toLower) = false →
        hasSub (str "char(36)") (t.map Char.toLower) = false →
        mariadb_type_to_cql_type t = (str "text", [unknown_type_warning t])
        ∧ t <:+: unknown_type_warning t) := by
  constructor
  · intro t
    by_cases hf : sortedKeys.find?
        (fun k => k.isPrefixOf ((t.map Char.toLower).takeWhile (fun c => c != '('))) = none
    · simp only [mariadb_type_to_cql_type, hf]
      split <;> simp
    · rcases Option.ne_none_iff_exists'.mp hf with ⟨k, hk⟩
      simp [mariadb_type_to_cql_type, hk]
  · intro t h1 h2 h3
    refine ⟨by simp [mariadb_type_to_cql_type, h1, h2, h3], ?_⟩
    exact ⟨str "    ⚠ Warning: Unknown type '", str "', using 'text'",
      by simp [unknown_type_warning, List.append_assoc]⟩

/-- Witness for `type_mapper_total_default`: `geometry` matches no mapping
key and neither UUID shape, and maps to `text` with its one warning. -/
theorem type_mapper_total_default_inst :
    sortedKeys.find?
        (fun k => k.isPrefixOf (((str "geometry").map Char.toLower).takeWhile (fun c => c != '('))) = none
    ∧ mariadb_type_to_cql_type (str "geometry")
        = (str "text", [unknown_type_warning (str "geometry")]) :=
  ⟨by decide,
   (type_mapper_total_default.2 (str "geometry") (by decide) (by decide) (by decide)).1⟩

/-- C8: the bulk copy of an empty source table executes no statement and
logs the skip notice; a non-empty source table yields exactly one
`INSERT INTO … SELECT * FROM …` statement, and running that statement
copies every source row into the (empty) mirror table. -/
theorem bulk_copy_rowcount_guard {α : Type} (source_database scylla_database table_name : Str)
    (rows : List α) (copyFails : Bool) :
    (rows = [] →
      migrate_table_data source_database scylla_database table_name rows copyFails
        = ([], [str "    ⚠ No data in source table (table is empty)"]))
    ∧ (rows ≠ [] →
      (migrate_table_data source_database scylla_database table_name rows copyFails).1
        = [DdlAction.copyData source_database scylla_database table_name]
      ∧ runCopyStmts
          (migrate_table_data source_database scylla_database table_name rows copyFails).1
          rows [] = rows) := by
  constructor
  · intro h
    subst h
    simp [migrate_table_data]
  · intro h
    have hlen : rows.length ≠ 0 := by simpa [List.length_eq_zero] using h
    by_cases hcf : copyFails <;>
      simp [migrate_table_data, runCopyStmts, hlen, hcf]

/-- Witness for `bulk_copy_rowcount_guard`: a three-row table gets exactly
one copy statement which copies all three rows. -/
theorem bulk_copy_rowcount_guard_inst :
    ([7, 8, 9] : List Nat) ≠ []
    ∧ (migrate_table_data (str "testdb") (str "scylla_db") (str "animals")
         ([7, 8, 9] : List Nat) false).1
        = [DdlAction.copyData (str "testdb") (str "scylla_db") (str "animals")]
    ∧ runCopyStmts
        (migrate_table_data (str "testdb") (str "scylla_db") (str "animals")
          ([7, 8, 9] : List Nat) false).1
        ([7, 8, 9] : List Nat) [] = [7, 8, 9] :=
  ⟨by decide,
   (bulk_copy_rowcount_guard (str "testdb") (str "scylla_db") (str "animals")
      ([7, 8, 9] : List Nat) false).2 (by decide) |>.1,
   (bulk_copy_rowcount_guard (str "testdb") (str "scylla_db") (str "animals")
      ([7, 8, 9] : List Nat) false).2 (by decide) |>.2⟩

/-- C4: for a table whose introspected primary-key column set is empty,
the per-table setup executes no statement at all (no CREATE TABLE, no
CREATE TRIGGER), logs the skip, and returns normally; the standalone
trigger generator likewise reports failure without executing anything;
and the setup loop goes on to process the rest of the tables. -/
theorem no_primary_key_skip (env : TableEnv) (args : Args)
    (hpk : primaryKeys env.columns = []) :
    (setup_table_migration env args).acts = []
    ∧ (setup_table_migration env args).ok = true
    ∧ (setup_table_migration env args).logs = no_pk_setup_logs env.name
    ∧ (create_replication_triggers args.mariadb_database env.name env.columns
        env.triggerFails).acts = []
    ∧ (create_replication_triggers args.mariadb_database env.name env.columns
        env.triggerFails).ok = false
    ∧ ∀ rest, runSetupAll args (env :: rest)
        = (env.name :: (runSetupAll args rest).1, (runSetupAll args rest).2) := by
  have hsetup : setup_table_migration env args = ⟨[], no_pk_setup_logs env.name, true⟩ := by
    simp [setup_table_migration, hpk]
  refine ⟨by simp [hsetup], by simp [hsetup], by simp [hsetup], ?_, ?_, ?_⟩
  · by_cases hc : env.columns = [] <;> simp [create_replication_triggers, hc, hpk]
  · by_cases hc : env.columns = [] <;> simp [create_replication_triggers, hc, hpk]
  · intro rest
    simp [runSetupAll, hsetup]

/-- Witness for `no_primary_key_skip`: a one-column table with no primary
key is skipped without any statement and without aborting the loop. -/
theorem no_primary_key_skip_inst :
    primaryKeys [⟨str "msg", str "text", true, false⟩] = []
    ∧ (setup_table_migration
        ⟨str "logs", [⟨str "msg", str "text", true, false⟩], false, false, false, false, false⟩
        ⟨str "testdb", str "scylla_db", str "migration", str "scylladb-migration-target", false⟩).acts = []
    ∧ (setup_table_migration
        ⟨str "logs", [⟨str "msg", str "text", true, false⟩], false, false, false, false, false⟩
        ⟨str "testdb", str "scylla_db", str "migration", str "scylladb-migration-target", false⟩).ok = true :=
  ⟨by decide,
   (no_primary_key_skip
      ⟨str "logs", [⟨str "msg", str "text", true, false⟩], false, false, false, false, false⟩
      ⟨str "testdb", str "scylla_db", str "migration", str "scylladb-migration-target", false⟩
      (by decide)).1,
   ((no_primary_key_skip
      ⟨str "logs", [⟨str "msg", str "text", true, false⟩], false, false, false, false, false⟩
      ⟨str "testdb", str "scylla_db", str "migration", str "scylladb-migration-target", false⟩
      (by decide)).2).1⟩

/-- C3 counterexample: a keyspace-creation failure on the first table is
re-raised by `create_keyspace`, is not caught anywhere, and aborts the
setup loop: the second table (`breeds`) is never processed, refuting the
claim that a failure in any per-table setup step lets every remaining
table be processed. -/
theorem setup_abort_on_keyspace_failure_cex :
    runSetupAll
        ⟨str "testdb", str "scylla_db", str "migration", str "scylladb-migration-target", false⟩
        [⟨str "animals", [⟨str "animal_id", str "int", false, true⟩], true, false, false, false, false⟩,
         ⟨str "breeds", [⟨str "breed_id", str "int", false, true⟩], false, false, false, false, false⟩]
      = ([str "animals"], true)
    ∧ str "breeds" ∉ (runSetupAll
        ⟨str "testdb", str "scylla_db", str "migration", str "scylladb-migration-target", false⟩
        [⟨str "animals", [⟨str "animal_id", str "int", false, true⟩], true, false, false, false, false⟩,
         ⟨str "breeds", [⟨str "breed_id", str "int", false, true⟩], false, false, false, false, false⟩]).1 := by
  refine ⟨by decide, by decide⟩

/-- C3 amended: failures in the mirror-table, trigger, or bulk-copy steps
are caught and logged, and every remaining table is still processed; only
keyspace creation and ScyllaDB target-table creation can abort the run.
When no table's keyspace or target-table step fails, the setup loop
processes every table, and the copy loop always visits every table. -/
theorem setup_continues_without_fatal_steps (args : Args) (envs : List TableEnv)
    (h : ∀ e ∈ envs, e.keyspaceFails = false ∧ e.scyllaTableFails = false) :
    runSetupAll args envs = (envs.map (fun e => e.name), false)
    ∧ ∀ (pairs : List (TableEnv × List Nat)),
        (runCopyAll args pairs).length = pairs.length := by
  constructor
  · induction envs with
    | nil => simp [runSetupAll]
    | cons e rest ih =>
      have he := h e (by simp)
      have hok : (setup_table_migration e args).ok = true := by
        by_cases hp : primaryKeys e.columns = [] <;>
          simp [setup_table_migration, create_keyspace, create_scylla_table,
                hp, he.1, he.2]
      simp [runSetupAll, hok, ih (fun x hx => h x (by simp [hx]))]
  · intro pairs
    induction pairs with
    | nil => simp [runCopyAll]
    | cons p rest ih => simp [runCopyAll, ih]

/-- Witness for `setup_continues_without_fatal_steps`: with a mirror-table
failure, a trigger failure and a copy failure on the first table, both
tables are still processed and the run does not abort. -/
theorem setup_continues_without_fatal_steps_inst :
    (∀ e ∈ [(⟨str "cats", [⟨str "cat_id", str "int", false, true⟩], false, false, true, true, true⟩ : TableEnv),
            ⟨str "dogs", [⟨str "dog_id", str "int", false, true⟩], false, false, false, false, false⟩],
        e.keyspaceFails = false ∧ e.scyllaTableFails = false)
    ∧ runSetupAll
        ⟨str "testdb", str "scylla_db", str "migration", str "scylladb-migration-target", false⟩
        [⟨str "cats", [⟨str "cat_id", str "int", false, true⟩], false, false, true, true, true⟩,
         ⟨str "dogs", [⟨str "dog_id", str "int", false, true⟩], false, false, false, false, false⟩]
      = ([str "cats", str "dogs"], false) :=
  ⟨by decide,
   (setup_continues_without_fatal_steps
      ⟨str "testdb", str "scylla_db", str "migration", str "scylladb-migration-target", false⟩
      [⟨str "cats", [⟨str "cat_id", str "int", false, true⟩], false, false, true, true, true⟩,
       ⟨str "dogs", [⟨str "dog_id", str "int", false, true⟩], false, false, false, false, false⟩]
      (by decide)).1⟩

/-- C1: the generated update trigger contains `WHERE <where_clause>`, and
for every primary-key column the WHERE clause (a conjunction of one
equality test per primary-key column) references the column's OLD
(pre-update) value and never its NEW value, so a row whose key is updated
is located by its pre-update key. -/
theorem update_trigger_where_clause_uses_old_keys
    (source_database scylla_database table : Str) (cols : List Column) (verbose : Bool)
    (hpk : primaryKeys cols ≠ [])
    (hsafe : ∀ c ∈ cols, safeIdent c.name = true) :
    (str "\n    WHERE " ++ where_clause cols ++ str ";\n    ")
        <:+: update_trigger source_database scylla_database table cols verbose
    ∧ ∀ pk ∈ primaryKeys cols,
        ((str "OLD.`" ++ pk ++ str "`") <:+: where_clause cols)
        ∧ ¬ ((str "NEW.`" ++ pk ++ str "`") <:+: where_clause cols) := by
  constructor
  · exact ⟨str "\nCREATE TRIGGER `" ++ source_database ++ str "`.`"
        ++ trigger_name table (str "update")
        ++ str "`\nAFTER UPDATE ON `" ++ source_database ++ str "`.`" ++ table
        ++ str "`\nFOR EACH ROW\nBEGIN\n    "
        ++ debug_line table (str "update") (str "START") verbose
        ++ str "\n    UPDATE `" ++ scylla_database ++ str "`.`" ++ table
        ++ str "`\n    SET " ++ update_col_list cols,
      debug_line table (str "update") (str "END") verbose ++ str "\nEND$$\n        ",
      by simp [update_trigger, List.append_assoc]⟩
  · intro pk hpkmem
    constructor
    · have hsplit : (str "` = OLD.`" : Str) = str "` = " ++ str "OLD.`" := by decide
      have h1 : (str "OLD.`" ++ pk ++ str "`")
          <:+: (str "`" ++ pk ++ str "` = OLD.`" ++ pk ++ str "`") :=
        ⟨str "`" ++ pk ++ str "` = ", [], by simp [hsplit, List.append_assoc]⟩
      exact h1.trans
        (infix_joinSep_of_mem (List.mem_map.mpr ⟨pk, hpkmem, rfl⟩))
    · intro hcontra
      have hW : 'W' ∈ where_clause cols :=
        hcontra.subset
          (List.mem_append.mpr (Or.inl (List.mem_append.mpr (Or.inl (by decide)))))
      exact where_clause_no_W hsafe hW

/-- Witness for `update_trigger_where_clause_uses_old_keys`: for the spec's
table with columns `id, name` and primary key `id`, the WHERE clause
references `OLD.id` and never `NEW.id`. -/
theorem update_trigger_where_clause_uses_old_keys_inst :
    primaryKeys [⟨str "id", str "int", false, true⟩,
                 ⟨str "name", str "varchar(50)", true, false⟩] ≠ []
    ∧ ((str "OLD.`" ++ str "id" ++ str "`")
        <:+: where_clause [⟨str "id", str "int", false, true⟩,
                           ⟨str "name", str "varchar(50)", true, false⟩])
    ∧ ¬ ((str "NEW.`" ++ str "id" ++ str "`")
        <:+: where_clause [⟨str "id", str "int", false, true⟩,
                           ⟨str "name", str "varchar(50)", true, false⟩]) :=
  ⟨by decide,
   ((update_trigger_where_clause_uses_old_keys (str "testdb") (str "scylla_db") (str "users")
      [⟨str "id", str "int", false, true⟩, ⟨str "name", str "varchar(50)", true, false⟩]
      false (by decide) (by decide)).2 (str "id") (by decide)).1,
   ((update_trigger_where_clause_uses_old_keys (str "testdb") (str "scylla_db") (str "users")
      [⟨str "id", str "int", false, true⟩, ⟨str "name", str "varchar(50)", true, false⟩]
      false (by decide) (by decide)).2 (str "id") (by decide)).2⟩

/-- C10: the generated update trigger contains `SET <update_col_list>`,
and the SET list assigns every column of the table — primary-key columns
included — to its NEW value. -/
theorem update_trigger_sets_all_columns
    (source_database scylla_database table : Str) (cols : List Column) (verbose : Bool) :
    (str "\n    SET " ++ update_col_list cols)
        <:+: update_trigger source_database scylla_database table cols verbose
    ∧ ∀ c ∈ cols,
        (str "`" ++ c.name ++ str "` = NEW.`" ++ c.name ++ str "`")
          <:+: update_col_list cols := by
  constructor
  · have hsplit : (str "`\n    SET " : Str) = str "`" ++ str "\n    SET " := by decide
    exact ⟨str "\nCREATE TRIGGER `" ++ source_database ++ str "`.`"
        ++ trigger_name table (str "update")
        ++ str "`\nAFTER UPDATE ON `" ++ source_database ++ str "`.`" ++ table
        ++ str "`\nFOR EACH ROW\nBEGIN\n    "
        ++ debug_line table (str "update") (str "START") verbose
        ++ str "\n    UPDATE `" ++ scylla_database ++ str "`.`" ++ table ++ str "`",
      str "\n    WHERE " ++ where_clause cols ++ str ";\n    "
        ++ debug_line table (str "update") (str "END") verbose ++ str "\nEND$$\n        ",
      by simp [update_trigger, hsplit, List.append_assoc]⟩
  · intro c hc
    exact infix_joinSep_of_mem (List.mem_map.mpr ⟨c, hc, rfl⟩)

/-- Witness for `update_trigger_sets_all_columns`: the primary-key column
`animal_id` itself is assigned to its NEW value in the SET list. -/
theorem update_trigger_sets_all_columns_inst :
    (⟨str "animal_id", str "int", false, true⟩ : Column).is_primary = true
    ∧ (⟨str "animal_id", str "int", false, true⟩ : Column)
        ∈ [(⟨str "animal_id", str "int", false, true⟩ : Column),
           ⟨str "name", str "varchar(50)", true, false⟩]
    ∧ (str "`" ++ str "animal_id" ++ str "` = NEW.`" ++ str "animal_id" ++ str "`")
        <:+: update_col_list [⟨str "animal_id", str "int", false, true⟩,
                              ⟨str "name", str "varchar(50)", true, false⟩] :=
  ⟨by decide, by decide,
   (update_trigger_sets_all_columns (str "testdb") (str "scylla_db") (str "animals")
      [⟨str "animal_id", str "int", false, true⟩, ⟨str "name", str "varchar(50)", true, false⟩]
      false).2 ⟨str "animal_id", str "int", false, true⟩ (by decide)⟩

/-- C9: when at least one column is flagged primary, the mirror-table DDL
contains a `PRIMARY KEY (…)` clause listing exactly the backtick-quoted
primary-key columns (`primaryKeys cols`, i.e. the columns flagged primary
in the source, in original declaration order). -/
theorem mirror_ddl_primary_key_clause (scylla_database table : Str)
    (cols : List Column) (comment : Str)
    (hpk : primaryKeys cols ≠ []) :
    (str "PRIMARY KEY ("
       ++ joinSep (str ", ") ((primaryKeys cols).map (fun n => str "`" ++ n ++ str "`"))
       ++ str ")")
      <:+: mirror_create_stmt scylla_database table cols comment := by
  have hmem : (str "PRIMARY KEY ("
       ++ joinSep (str ", ") ((primaryKeys cols).map (fun n => str "`" ++ n ++ str "`"))
       ++ str ")") ∈ mirror_column_defs cols := by
    simp [mirror_column_defs, hpk]
  have h1 : (str "PRIMARY KEY ("
       ++ joinSep (str ", ") ((primaryKeys cols).map (fun n => str "`" ++ n ++ str "`"))
       ++ str ")") <:+: joinSep (str ", ") (mirror_column_defs cols) :=
    infix_joinSep_of_mem hmem
  exact h1.trans
    ⟨str "\n            CREATE TABLE IF NOT EXISTS `" ++ scylla_database ++ str "`.`"
       ++ table ++ str "` (\n                ",
     str "\n            ) ENGINE=SCYLLA\n            COMMENT='" ++ comment ++ str "'\n        ",
     by simp [mirror_create_stmt, List.append_assoc]⟩

/-- Witness for `mirror_ddl_primary_key_clause`: the spec's `animals` table
(`animal_id` primary) yields a DDL containing `PRIMARY KEY (`animal_id`)`. -/
theorem mirror_ddl_primary_key_clause_inst :
    primaryKeys [⟨str "animal_id", str "int", false, true⟩,
                 ⟨str "name", str "varchar(50)", true, false⟩,
                 ⟨str "weight_kg", str "decimal(10,2)", true, false⟩] ≠ []
    ∧ (str "PRIMARY KEY ("
        ++ joinSep (str ", ")
            ((primaryKeys [⟨str "animal_id", str "int", false, true⟩,
                           ⟨str "name", str "varchar(50)", true, false⟩,
                           ⟨str "weight_kg", str "decimal(10,2)", true, false⟩]).map
              (fun n => str "`" ++ n ++ str "`"))
        ++ str ")") = str "PRIMARY KEY (`animal_id`)"
    ∧ (str "PRIMARY KEY ("
        ++ joinSep (str ", ")
            ((primaryKeys [⟨str "animal_id", str "int", false, true⟩,
                           ⟨str "name", str "varchar(50)", true, false⟩,
                           ⟨str "weight_kg", str "decimal(10,2)", true, false⟩]).map
              (fun n => str "`" ++ n ++ str "`"))
        ++ str ")")
      <:+: mirror_create_stmt (str "scylla_db") (str "animals")
            [⟨str "animal_id", str "int", false, true⟩,
             ⟨str "name", str "varchar(50)", true, false⟩,
             ⟨str "weight_kg", str "decimal(10,2)", true, false⟩]
            (mirror_comment (str "scylladb-migration-target") (str "migration")
              (str "animals") false) :=
  ⟨by decide, by decide,
   mirror_ddl_primary_key_clause (str "scylla_db") (str "animals")
     [⟨str "animal_id", str "int", false, true⟩,
      ⟨str "name", str "varchar(50)", true, false⟩,
      ⟨str "weight_kg", str "decimal(10,2)", true, false⟩]
     (mirror_comment (str "scylladb-migration-target") (str "migration") (str "animals") false)
     (by decide)⟩

/-- C5: running the full per-table setup statement sequence twice against
any object store errors neither time (keyspace/table creation is
conditional, and each trigger is dropped ignoring absence before its
unconditional re-creation), and the second run leaves the store exactly
as the first run left it — no duplicate objects. -/
theorem setup_idempotent_second_run (env : TableEnv) (args : Args) (s0 : Finset ObjId)
    (hpk : primaryKeys env.columns ≠ [])
    (hk : env.keyspaceFails = false) (hsc : env.scyllaTableFails = false)
    (hm : env.mirrorFails = false) (ht : env.triggerFails = false) :
    (runActions s0 (setup_table_migration env args).acts).2 = false
    ∧ (runActions (runActions s0 (setup_table_migration env args).acts).1
        (setup_table_migration env args).acts).2 = false
    ∧ (runActions (runActions s0 (setup_table_migration env args).acts).1
        (setup_table_migration env args).acts).1
      = (runActions s0 (setup_table_migration env args).acts).1 := by
  have hcols : ¬ env.columns = [] := by
    intro h
    exact hpk (by simp [primaryKeys, h])
  have hacts : (setup_table_migration env args).acts =
      [DdlAction.createIfAbsent (ObjId.keyspace args.scylla_ks),
       DdlAction.createIfAbsent (ObjId.scyllaTable args.scylla_ks env.name),
       DdlAction.createIfAbsent (ObjId.mirrorTable args.mariadb_scylla_database env.name),
       DdlAction.dropIfExists
         (ObjId.trigger args.mariadb_database (trigger_name env.name (str "insert"))),
       DdlAction.dropIfExists
         (ObjId.trigger args.mariadb_database (trigger_name env.name (str "update"))),
       DdlAction.dropIfExists
         (ObjId.trigger args.mariadb_database (trigger_name env.name (str "delete"))),
       DdlAction.createStrict
         (ObjId.trigger args.mariadb_database (trigger_name env.name (str "insert"))),
       DdlAction.createStrict
         (ObjId.trigger args.mariadb_database (trigger_name env.name (str "update"))),
       DdlAction.createStrict
         (ObjId.trigger args.mariadb_database (trigger_name env.name (str "delete")))] := by
    simp [setup_table_migration, create_keyspace, create_scylla_table,
          create_mariadb_scylla_table, create_replication_triggers,
          hpk, hcols, hk, hsc, hm, ht]
  have d1 : ObjId.trigger args.mariadb_database (trigger_name env.name (str "insert"))
      ≠ ObjId.trigger args.mariadb_database (trigger_name env.name (str "update")) := by
    intro hEq
    injection hEq with _ hn
    exact trigger_name_ne (by decide) hn
  have d2 : ObjId.trigger args.mariadb_database (trigger_name env.name (str "insert"))
      ≠ ObjId.trigger args.mariadb_database (trigger_name env.name (str "delete")) := by
    intro hEq
    injection hEq with _ hn
    exact trigger_name_ne (by decide) hn
  have d3 : ObjId.trigger args.mariadb_database (trigger_name env.name (str "update"))
      ≠ ObjId.trigger args.mariadb_database (trigger_name env.name (str "delete")) := by
    intro hEq
    injection hEq with _ hn
    exact trigger_name_ne (by decide) hn
  rw [hacts]
  simp only [create_drop_cycle _ _ _ _ _ _ _ d1 d2 d3]
  refine ⟨trivial, trivial, ?_⟩
  ext o
  simp only [Finset.mem_insert, Finset.mem_erase]
  tauto

/-- Witness for `setup_idempotent_second_run`: a concrete one-primary-key
table with no injected failures, run twice from the empty store. -/
theorem setup_idempotent_second_run_inst :
    primaryKeys [⟨str "pet_id", str "int", false, true⟩,
                 ⟨str "nick", str "varchar(20)", true, false⟩] ≠ []
    ∧ (runActions (∅ : Finset ObjId)
        (setup_table_migration
          ⟨str "pets", [⟨str "pet_id", str "int", false, true⟩,
                        ⟨str "nick", str "varchar(20)", true, false⟩],
           false, false, false, false, false⟩
          ⟨str "testdb", str "scylla_db", str "migration",
           str "scylladb-migration-target", false⟩).acts).2 = false
    ∧ (runActions
        (runActions (∅ : Finset ObjId)
          (setup_table_migration
            ⟨str "pets", [⟨str "pet_id", str "int", false, true⟩,
                          ⟨str "nick", str "varchar(20)", true, false⟩],
             false, false, false, false, false⟩
            ⟨str "testdb", str "scylla_db", str "migration",
             str "scylladb-migration-target", false⟩).acts).1
        (setup_table_migration
          ⟨str "pets", [⟨str "pet_id", str "int", false, true⟩,
                        ⟨str "nick", str "varchar(20)", true, false⟩],
           false, false, false, false, false⟩
          ⟨str "testdb", str "scylla_db", str "migration",
           str "scylladb-migration-target", false⟩).acts).1
      = (runActions (∅ : Finset ObjId)
          (setup_table_migration
            ⟨str "pets", [⟨str "pet_id", str "int", false, true⟩,
                          ⟨str "nick", str "varchar(20)", true, false⟩],
             false, false, false, false, false⟩
            ⟨str "testdb", str "scylla_db", str "migration",
             str "scylladb-migration-target", false⟩).acts).1 :=
  ⟨by decide,
   (setup_idempotent_second_run
      ⟨str "pets", [⟨str "pet_id", str "int", false, true⟩,
                    ⟨str "nick", str "varchar(20)", true, false⟩],
       false, false, false, false, false⟩
      ⟨str "testdb", str "scylla_db", str "migration",
       str "scylladb-migration-target", false⟩
      (∅ : Finset ObjId) (by decide) rfl rfl rfl rfl).1,
   (setup_idempotent_second_run
      ⟨str "pets", [⟨str "pet_id", str "int", false, true⟩,
                    ⟨str "nick", str "varchar(20)", true, false⟩],
       false, false, false, false, false⟩
      ⟨str "testdb", str "scylla_db", str "migration",
       str "scylladb-migration-target", false⟩
      (∅ : Finset ObjId) (by decide) rfl rfl rfl rfl).2.2⟩
